import Mathlib

/-!
Verification development for the round/spin state machine of the roulette backend
(`src/services/GameStateManager.ts`), the roulette number properties
(`src/utils/RouletteUtils.ts`), and the admin enqueue handlers
(`src/bot/TelegramBotService.ts` and its queue-bounded variant).

The TypeScript code is embedded shallowly: every operation becomes a pure
Lean function on an explicit coordinator state.  JavaScript timestamps are
`Nat` milliseconds; `setTimeout` calls are recorded as counters of pending
timer callbacks (the source never stores the handles nor calls
`clearTimeout`); the Supabase store is an append-only list of rows; an
`async` function that `await`s mid-body is split into its synchronous
prefix and the suspended continuation, so event-loop interleavings can be
expressed exactly where the source can actually yield.
-/

namespace Roulette

/-! ## Roulette number properties (`src/utils/RouletteUtils.ts`) -/

/-- `RED_NUMBERS` of RouletteUtils.ts (European roulette red set). -/
def RED_NUMBERS : List Int := [1, 3, 5, 7, 9, 12, 14, 16, 18, 19, 21, 23, 25, 27, 30, 32, 34, 36]

/-- `BLACK_NUMBERS` of RouletteUtils.ts (European roulette black set). -/
def BLACK_NUMBERS : List Int := [2, 4, 6, 8, 10, 11, 13, 15, 17, 20, 22, 24, 26, 28, 29, 31, 33, 35]

/-- `isValidRouletteNumber(number)`: `Number.isInteger(number) && number >= 0 && number <= 36`.
JavaScript numbers are embedded as rationals; `Number.isInteger` is the
denominator-one test. -/
def isValidRouletteNumber (q : ℚ) : Bool :=
  q.den == 1 && decide (0 ≤ q.num) && decide (q.num ≤ 36)

/-- Core of `getRouletteColor` after validation: red set, then black set,
then the green fallthrough (`return` of the green string), in source order. -/
def rouletteColorCore (n : Int) : String :=
  if n ∈ RED_NUMBERS then "Red"
  else if n ∈ BLACK_NUMBERS then "Black"
  else "Green"

/-- Core of `getRouletteParity` after validation: zero, then `number % 2`. -/
def rouletteParityCore (n : Int) : String :=
  if n = 0 then "None"
  else if n % 2 = 0 then "Even" else "Odd"

/-- `getRouletteColor(number)`: throws on an invalid number (embedded as
`Except.error`), otherwise returns the color string. -/
def getRouletteColor (q : ℚ) : Except String String :=
  if isValidRouletteNumber q then Except.ok (rouletteColorCore q.num)
  else Except.error "Invalid roulette number"

/-- `getRouletteParity(number)`: throws on an invalid number (embedded as
`Except.error`), otherwise returns the parity string. -/
def getRouletteParity (q : ℚ) : Except String String :=
  if isValidRouletteNumber q then Except.ok (rouletteParityCore q.num)
  else Except.error "Invalid roulette number"

/-- Color function following the words of the spec ("0 → Green; else Red if n ∈
fixed red-set, else Black"), for comparison with `getRouletteColor`. -/
def specColorOf (n : Int) : String :=
  if n = 0 then "Green"
  else if n ∈ RED_NUMBERS then "Red" else "Black"

/-- Parity function following the words of the spec ("0 → None; else Even/Odd by
n % 2"), for comparison with `getRouletteParity`. -/
def specParityOf (n : Int) : String :=
  if n = 0 then "None"
  else if n % 2 = 0 then "Even" else "Odd"

/-- `isValidRouletteNumber` restricted to the natural numbers that reach the
queue (for which `Number.isInteger` and nonnegativity hold): `n <= 36`. -/
def isValidNat (n : Nat) : Bool := n ≤ 36

/-! ## Coordinator state (`src/services/GameStateManager.ts`) -/

/-- `GameState` enum: RUNNING | PAUSED | STOPPED. -/
inductive GameState
  | running
  | paused
  | stopped
deriving DecidableEq, Repr

/-- A persisted row of `roulette_spin_results` (fields relevant to the
claims: number, color, parity). -/
structure SpinResult where
  number : Nat
  color : String
  parity : String
deriving DecidableEq, Repr

/-- Configuration constants from `src/config/config.ts`. -/
def ROUND_DURATION : Nat := 30000

/-- `FRONTEND_ACTIVITY_TIMEOUT` from `src/config/config.ts`. -/
def FRONTEND_ACTIVITY_TIMEOUT : Nat := 60000

/-- `MAX_SPIN_QUEUE_SIZE` from `src/config/config.ts`. -/
def MAX_SPIN_QUEUE_SIZE : Nat := 100

/-- The mutable state of `GameStateManager` together with the module-level
`spinQueue`, the persisted result store, and the counts of `setTimeout`
callbacks that have been scheduled but neither fired nor cancelled (the
source never stores a timer handle and never calls `clearTimeout`). -/
structure GMState where
  currentState : GameState
  roundActive : Bool
  isSpinning : Bool
  currentRoundStartTime : Option Nat
  currentSpinIndex : Option Nat
  roundDuration : Nat
  spinQueue : List Nat
  lastFrontendActivity : Option Nat
  storedResults : List SpinResult
  supabaseConfigured : Bool
  pendingRoundTimers : Nat
  pendingSpinTimers : Nat
deriving DecidableEq, Repr

/-- State right after the `GameStateManager` constructor runs. -/
def initialState : GMState where
  currentState := .running
  roundActive := false
  isSpinning := false
  currentRoundStartTime := none
  currentSpinIndex := none
  roundDuration := ROUND_DURATION
  spinQueue := []
  lastFrontendActivity := none
  storedResults := []
  supabaseConfigured := true
  pendingRoundTimers := 0
  pendingSpinTimers := 0

/-! ## Operations -/

/-- Distinguishes the three exits of `endRound()`: the logged
"Cannot end round - no active round" early return, the logged
"Round ended without spin" idle transition, and the spin-start transition. -/
inductive EndRoundResult
  | noActiveRound
  | endedIdle
  | spinStarted
deriving DecidableEq, Repr

/-- `startNewRound()`: guards `isRunning()` and `!roundActive`, then sets
`roundActive`, clears `isSpinning` and `currentSpinIndex`, records the start
time, and schedules the round-end timeout. -/
def startNewRound (now : Nat) (s : GMState) : GMState × Bool :=
  if s.currentState ≠ .running then (s, false)
  else if s.roundActive then (s, false)
  else
    ({ s with
        roundActive := true
        isSpinning := false
        currentRoundStartTime := some now
        currentSpinIndex := none
        pendingRoundTimers := s.pendingRoundTimers + 1 }, true)

/-- Synchronous prefix of `endRound()`, up to its first `await`
(`logSpinProcessing`, the audit write).  It checks the `roundActive` guard,
drains the whole queue (`const spins = [...spinQueue]; spinQueue.length = 0`),
finishes the empty-queue branch entirely (that branch has no `await` before
returning), and in the non-empty branch sets `currentSpinIndex` to the FIFO
head and suspends, returning the drained batch as the data of the continuation. -/
def endRoundSync (s : GMState) : GMState × Option (List Nat) × EndRoundResult :=
  if s.roundActive = false then (s, none, .noActiveRound)
  else
    let spins := s.spinQueue
    let s1 := { s with spinQueue := [] }
    match spins with
    | [] =>
        ({ s1 with roundActive := false, isSpinning := false, currentSpinIndex := none },
         none, .endedIdle)
    | n :: _ =>
        ({ s1 with currentSpinIndex := some n }, some spins, .spinStarted)

/-- Continuation of `endRound()` after the audit `await`: returns the
remainder of the drained batch to the front of the queue
(`spinQueue.unshift(...spins.slice(1))`, only when more than one was
drained), sets `isSpinning` and clears `roundActive` (both assignments are
synchronous, with no yield between them), and schedules the spin-end
timeout. -/
def endRoundResume (spins : List Nat) (s : GMState) : GMState :=
  let s1 :=
    if spins.length > 1 then { s with spinQueue := spins.tail ++ s.spinQueue } else s
  { s1 with
      isSpinning := true
      roundActive := false
      pendingSpinTimers := s1.pendingSpinTimers + 1 }

/-- `endRound()` run to completion with no interleaved operation: the
synchronous prefix followed, when it suspended, by its continuation. -/
def endRound (s : GMState) : GMState × EndRoundResult :=
  match endRoundSync s with
  | (s1, none, r) => (s1, r)
  | (s1, some spins, r) => (endRoundResume spins s1, r)

/-- `storeSpinResult(spinNumber)` as called from `endSpin()`: skipped when
Supabase is unconfigured; otherwise computes color and parity with
`getRouletteColor`/`getRouletteParity` and appends one row.  When the number
is invalid those functions throw on every retry; `endSpin` catches the final
error and continues without storing. -/
def storeSpinResult (n : Nat) (s : GMState) : GMState :=
  if s.supabaseConfigured = false then s
  else if isValidNat n then
    { s with storedResults :=
        s.storedResults ++ [⟨n, rouletteColorCore (n : Int), rouletteParityCore (n : Int)⟩] }
  else s

/-- `endSpin()`: guards `isSpinning`, stores the spin result (when a
committed number is present), then clears `isSpinning` and
`currentSpinIndex`.  The returned flag distinguishes the logged
"Cannot end spin" early return from the completed transition. -/
def endSpin (s : GMState) : GMState × Bool :=
  if s.isSpinning = false then (s, false)
  else
    let s1 :=
      match s.currentSpinIndex with
      | some n => storeSpinResult n s
      | none => s
    ({ s1 with isSpinning := false, currentSpinIndex := none }, true)

/-- `pause()`: RUNNING → PAUSED, otherwise failure. -/
def pause (s : GMState) : GMState × Bool :=
  if s.currentState = .running then ({ s with currentState := .paused }, true)
  else (s, false)

/-- `resume()`: any non-RUNNING state → RUNNING, otherwise failure. -/
def resume (s : GMState) : GMState × Bool :=
  if s.currentState ≠ .running then ({ s with currentState := .running }, true)
  else (s, false)

/-- `stop()`: any non-STOPPED state → STOPPED, otherwise failure. -/
def stop (s : GMState) : GMState × Bool :=
  if s.currentState ≠ .stopped then ({ s with currentState := .stopped }, true)
  else (s, false)

/-- `reset()`: unconditionally returns to RUNNING, clears the phase flags,
the start time, the committed number, the frontend-activity timestamp, and
the queue.  The source stores no timer handles and calls no `clearTimeout`,
so pending timer callbacks are left untouched. -/
def reset (s : GMState) : GMState :=
  { s with
      currentState := .running
      roundActive := false
      isSpinning := false
      currentRoundStartTime := none
      currentSpinIndex := none
      lastFrontendActivity := none
      spinQueue := [] }

/-- The snapshot object returned by `getGameStateResponse()`.  The
`roundStartTime` ISO string is represented by the timestamp it formats. -/
structure GameStateResponse where
  roundActive : Bool
  isSpinning : Bool
  spinIndex : Option Nat
  roundStartTime : Option Nat
  roundDuration : Nat
deriving DecidableEq, Repr

/-- `getGameStateResponse()`: when the elapsed time of the active round has
reached its duration it calls `this.endRound()` WITHOUT awaiting it, so only
the synchronous prefix of `endRound` runs before the response object is
built; a suspended continuation, when one was created, is returned alongside.
The `spinIndex` field is `this.currentSpinIndex || undefined`: the committed
number 0 is falsy in JavaScript and is coerced to `undefined`. -/
def getGameStateResponse (now : Nat) (s : GMState) :
    GameStateResponse × GMState × Option (List Nat) :=
  let step :=
    match s.roundActive, s.currentRoundStartTime with
    | true, some t0 =>
        if s.roundDuration ≤ now - t0 then
          match endRoundSync s with
          | (s1, k, _) => (s1, k)
        else (s, none)
    | _, _ => (s, none)
  let s1 := step.1
  ({ roundActive := s1.roundActive
     isSpinning := s1.isSpinning
     spinIndex :=
       match s1.currentSpinIndex with
       | some n => if n = 0 then none else some n
       | none => none
     roundStartTime := s1.currentRoundStartTime
     roundDuration := s1.roundDuration }, s1, step.2)

/-- `getSpinResult()`: `null` unless a spin is in progress with a committed
number; otherwise `{ spinIndex }` (0 included, since the check is
`=== null`). -/
def getSpinResult (s : GMState) : Option Nat :=
  if s.isSpinning = false then none
  else s.currentSpinIndex

/-- `triggerRoundEnd()`: failure when no round is active, otherwise awaits a
full `endRound()` and reports success. -/
def triggerRoundEnd (s : GMState) : GMState × Bool :=
  if s.roundActive = false then (s, false)
  else ((endRound s).1, true)

/-- `triggerManualSpin(spinIndex)`: validates the number, fails while
spinning, otherwise unshifts the number onto the front of the queue and, when
a round is active, awaits a full `endRound()`. -/
def triggerManualSpin (n : Nat) (s : GMState) : GMState × Bool :=
  if isValidNat n = false then (s, false)
  else if s.isSpinning then (s, false)
  else
    let s1 := { s with spinQueue := n :: s.spinQueue }
    if s1.roundActive then ((endRound s1).1, true) else (s1, true)

/-- `recordFrontendActivity()`: stamps the poll time. -/
def recordFrontendActivity (now : Nat) (s : GMState) : GMState :=
  { s with lastFrontendActivity := some now }

/-- `isFrontendInactive()`: false before any activity is recorded, otherwise
compares the gap against the configured timeout. -/
def isFrontendInactive (now : Nat) (s : GMState) : Bool :=
  match s.lastFrontendActivity with
  | none => false
  | some t => decide (FRONTEND_ACTIVITY_TIMEOUT < now - t)

/-- One tick of the `startActivityMonitoring` interval (`checkActivity`):
when the frontend is inactive and the machine is not idle it collapses the
state directly, first clearing a spin, then clearing a round, bypassing
`endRound`/`endSpin` and their persistence. -/
def checkActivity (now : Nat) (s : GMState) : GMState :=
  if isFrontendInactive now s && (s.roundActive || s.isSpinning) then
    let s1 :=
      if s.isSpinning then { s with isSpinning := false, currentSpinIndex := none } else s
    if s1.roundActive then { s1 with roundActive := false, currentRoundStartTime := none }
    else s1
  else s

/-! ## Admin enqueue handlers -/

/-- Outcome of the bot command handler for `spin: <n>`. -/
inductive AddSpinOutcome
  | notAuthorized
  | invalidNumber
  | queueFull
  | queued
deriving DecidableEq, Repr

/-- The `spin:` handler of `src/bot/TelegramBotService.ts` (the variant the
entry point wires in): admin check, `isValidRouletteNumber` check, then an
unconditional `spinQueue.push(index)` — there is no queue-size check — then
a snapshot read and, when the machine is idle and running, `startNewRound`. -/
def botAddSpin (isAdminUser : Bool) (n : Nat) (now : Nat) (s : GMState) :
    GMState × AddSpinOutcome :=
  if isAdminUser = false then (s, .notAuthorized)
  else if isValidNat n = false then (s, .invalidNumber)
  else
    let s1 := { s with spinQueue := s.spinQueue ++ [n] }
    let snap := getGameStateResponse now s1
    let resp := snap.1
    let s2 := snap.2.1
    if resp.roundActive = false && resp.isSpinning = false && s2.currentState = .running then
      ((startNewRound now s2).1, .queued)
    else (s2, .queued)

/-- The `spin:` handler of the queue-bounded bot variant
(`src/unnamed/part_002`): after the admin and validity checks it rejects
with "Queue Full" when `spinQueue.length >= CONFIG.MAX_SPIN_QUEUE_SIZE`,
before any mutation; otherwise it stores the spin row immediately, pushes,
and starts a round when idle.  (The last-spin cache refresh of that variant
touches no state modeled here.) -/
def botAddSpinBounded (isAdminUser : Bool) (n : Nat) (now : Nat) (s : GMState) :
    GMState × AddSpinOutcome :=
  if isAdminUser = false then (s, .notAuthorized)
  else if isValidNat n = false then (s, .invalidNumber)
  else if MAX_SPIN_QUEUE_SIZE ≤ s.spinQueue.length then (s, .queueFull)
  else
    let s0 := storeSpinResult n s
    let s1 := { s0 with spinQueue := s0.spinQueue ++ [n] }
    let snap := getGameStateResponse now s1
    let resp := snap.1
    let s2 := snap.2.1
    if resp.roundActive = false && resp.isSpinning = false && s2.currentState = .running then
      ((startNewRound now s2).1, .queued)
    else (s2, .queued)

/-! ## Event-loop semantics

A configuration is the coordinator state together with at most one suspended
`endRound` continuation (the drained batch parked at the audit `await`).
Each `Op` is one synchronous slice of work as the single-threaded event loop
schedules it; `endRoundSuspend` / `endRoundFinish` are the two halves of an
`endRound` call whose `await` let other work interleave, while the `endRound`
op is a call that ran to completion with nothing interleaved. -/

abbrev Config := GMState × Option (List Nat)

/-- One schedulable slice of work against the coordinator. -/
inductive Op
  | startRound (now : Nat)
  | endRound
  | endRoundSuspend
  | endRoundFinish
  | endSpin
  | snapshot (now : Nat)
  | triggerRoundEnd
  | triggerManualSpin (n : Nat)
  | pause
  | resume
  | stop
  | reset
  | activitySweep (now : Nat)
  | recordActivity (now : Nat)
  | enqueue (n : Nat)
deriving DecidableEq, Repr

/-- An `endRound` call that runs its synchronous prefix and suspends at the
audit `await`: when the prefix created a continuation it is parked in the
configuration. -/
def suspendStep (c : Config) : Config :=
  match endRoundSync c.1 with
  | (s1, some spins, _) => (s1, some spins)
  | (s1, none, _) => (s1, c.2)

/-- The parked `endRound` continuation being scheduled by the event loop. -/
def finishStep (c : Config) : Config :=
  match c.2 with
  | some spins => (endRoundResume spins c.1, none)
  | none => c

/-- A `getGameStateResponse` call; its lazy-expiry side effect may also
suspend an `endRound` at the audit `await`. -/
def snapshotStep (now : Nat) (c : Config) : Config :=
  match getGameStateResponse now c.1 with
  | (_, s1, some spins) => (s1, some spins)
  | (_, s1, none) => (s1, c.2)

/-- Apply one slice of work to a configuration. -/
def applyOp (op : Op) (c : Config) : Config :=
  match op with
  | .startRound now => ((startNewRound now c.1).1, c.2)
  | .endRound => ((endRound c.1).1, c.2)
  | .endRoundSuspend => suspendStep c
  | .endRoundFinish => finishStep c
  | .endSpin => ((endSpin c.1).1, c.2)
  | .snapshot now => snapshotStep now c
  | .triggerRoundEnd => ((triggerRoundEnd c.1).1, c.2)
  | .triggerManualSpin n => ((triggerManualSpin n c.1).1, c.2)
  | .pause => ((pause c.1).1, c.2)
  | .resume => ((resume c.1).1, c.2)
  | .stop => ((stop c.1).1, c.2)
  | .reset => (reset c.1, c.2)
  | .activitySweep now => (checkActivity now c.1, c.2)
  | .recordActivity now => (recordFrontendActivity now c.1, c.2)
  | .enqueue n => ({ c.1 with spinQueue := c.1.spinQueue ++ [n] }, c.2)

/-- Run a sequence of slices from a configuration. -/
def run (ops : List Op) (c : Config) : Config :=
  ops.foldl (fun c op => applyOp op c) c

/-! ## Helper lemmas: the phase flags are never both set -/

/-- The two phase booleans are not simultaneously true. -/
def phasesOK (s : GMState) : Prop := (s.roundActive && s.isSpinning) = false

theorem phasesOK_of_not_spinning {s : GMState} (h : s.isSpinning = false) : phasesOK s := by
  simp [phasesOK, h]

theorem phasesOK_of_not_round {s : GMState} (h : s.roundActive = false) : phasesOK s := by
  simp [phasesOK, h]

theorem phasesOK_startNewRound (now : Nat) (s : GMState) (h : phasesOK s) :
    phasesOK (startNewRound now s).1 := by
  unfold startNewRound
  split
  · exact h
  · split
    · exact h
    · exact phasesOK_of_not_spinning rfl

theorem phasesOK_endRoundSync (s : GMState) (h : phasesOK s) :
    phasesOK (endRoundSync s).1 := by
  unfold endRoundSync
  split
  · exact h
  · rcases hq : s.spinQueue with _ | ⟨n, rest⟩ <;> simp only [hq]
    · exact phasesOK_of_not_round rfl
    · exact h

theorem phasesOK_endRoundResume (spins : List Nat) (s : GMState) :
    phasesOK (endRoundResume spins s) := by
  unfold endRoundResume
  exact phasesOK_of_not_round rfl

theorem phasesOK_endRound (s : GMState) (h : phasesOK s) :
    phasesOK (endRound s).1 := by
  unfold endRound
  have h1 := phasesOK_endRoundSync s h
  rcases he : endRoundSync s with ⟨s1, k, r⟩
  rw [he] at h1
  rcases k with _ | spins
  · exact h1
  · exact phasesOK_endRoundResume spins s1

theorem phasesOK_endSpin (s : GMState) (h : phasesOK s) :
    phasesOK (endSpin s).1 := by
  unfold endSpin
  split
  · exact h
  · exact phasesOK_of_not_spinning rfl

theorem phasesOK_triggerRoundEnd (s : GMState) (h : phasesOK s) :
    phasesOK (triggerRoundEnd s).1 := by
  unfold triggerRoundEnd
  split
  · exact h
  · exact phasesOK_endRound s h

theorem phasesOK_triggerManualSpin (n : Nat) (s : GMState) (h : phasesOK s) :
    phasesOK (triggerManualSpin n s).1 := by
  unfold triggerManualSpin
  split
  · exact h
  · split
    · exact h
    · dsimp only
      split
      · exact phasesOK_endRound _ h
      · exact h

theorem phasesOK_reset (s : GMState) : phasesOK (reset s) :=
  phasesOK_of_not_round rfl

theorem phasesOK_checkActivity (now : Nat) (s : GMState) (h : phasesOK s) :
    phasesOK (checkActivity now s) := by
  unfold checkActivity
  split
  · dsimp only
    split <;> split
    all_goals
      first
        | exact phasesOK_of_not_round rfl
        | exact phasesOK_of_not_spinning rfl
        | exact h
  · exact h

theorem phasesOK_getGameStateResponse (now : Nat) (s : GMState) (h : phasesOK s) :
    phasesOK (getGameStateResponse now s).2.1 := by
  unfold getGameStateResponse
  dsimp only
  rcases hA : s.roundActive
  · simp only [hA]
    exact h
  · rcases hT : s.currentRoundStartTime with _ | t0 <;> simp only [hA, hT]
    · exact h
    · split
      · have h1 := phasesOK_endRoundSync s h
        rcases he : endRoundSync s with ⟨s1, k1, r⟩
        rw [he] at h1
        simp only [he]
        exact h1
      · exact h

theorem phasesOK_pause (s : GMState) (h : phasesOK s) : phasesOK (pause s).1 := by
  unfold pause
  split <;> exact h

theorem phasesOK_resume (s : GMState) (h : phasesOK s) : phasesOK (resume s).1 := by
  unfold resume
  split <;> exact h

theorem phasesOK_stop (s : GMState) (h : phasesOK s) : phasesOK (stop s).1 := by
  unfold stop
  split <;> exact h

theorem phasesOK_suspendStep (c : Config) (h : phasesOK c.1) :
    phasesOK (suspendStep c).1 := by
  unfold suspendStep
  have h1 := phasesOK_endRoundSync c.1 h
  rcases he : endRoundSync c.1 with ⟨s1, k1, r⟩
  rw [he] at h1
  rcases k1 with _ | spins <;> exact h1

theorem phasesOK_finishStep (c : Config) (h : phasesOK c.1) :
    phasesOK (finishStep c).1 := by
  unfold finishStep
  rcases c with ⟨s, _ | spins⟩
  · exact h
  · exact phasesOK_endRoundResume spins s

theorem phasesOK_snapshotStep (now : Nat) (c : Config) (h : phasesOK c.1) :
    phasesOK (snapshotStep now c).1 := by
  unfold snapshotStep
  have h1 := phasesOK_getGameStateResponse now c.1 h
  rcases he : getGameStateResponse now c.1 with ⟨resp, s1, k1⟩
  rw [he] at h1
  rcases k1 with _ | spins <;> exact h1

theorem phasesOK_applyOp (op : Op) (c : Config) (h : phasesOK c.1) :
    phasesOK (applyOp op c).1 := by
  rcases c with ⟨s, k⟩
  cases op with
  | startRound now => exact phasesOK_startNewRound now s h
  | endRound => exact phasesOK_endRound s h
  | endRoundSuspend => exact phasesOK_suspendStep (s, k) h
  | endRoundFinish => exact phasesOK_finishStep (s, k) h
  | endSpin => exact phasesOK_endSpin s h
  | snapshot now => exact phasesOK_snapshotStep now (s, k) h
  | triggerRoundEnd => exact phasesOK_triggerRoundEnd s h
  | triggerManualSpin n => exact phasesOK_triggerManualSpin n s h
  | pause => exact phasesOK_pause s h
  | resume => exact phasesOK_resume s h
  | stop => exact phasesOK_stop s h
  | reset => exact phasesOK_reset s
  | activitySweep now => exact phasesOK_checkActivity now s h
  | recordActivity now => exact h
  | enqueue n => exact h

theorem phasesOK_run (ops : List Op) (c : Config) (h : phasesOK c.1) :
    phasesOK (run ops c).1 := by
  induction ops generalizing c with
  | nil => exact h
  | cons op rest ih => exact ih (applyOp op c) (phasesOK_applyOp op c h)

/-! ## Claims -/

/-- C1: in every state reachable from the initial state by any sequence of
event-loop slices (startRound, endRound — whole, or split at its audit
suspension —, endSpin, snapshot reads, triggerManualSpin, triggerRoundEnd,
pause, resume, stop, reset, activity sweeps, activity recording, and admin
enqueues), `roundActive` and `isSpinning` are never both true. -/
theorem C1_round_spin_mutex (ops : List Op) :
    ((run ops (initialState, none)).1.roundActive
      && (run ops (initialState, none)).1.isSpinning) = false :=
  phasesOK_run ops (initialState, none) rfl

/-- Neither half of `endRound` touches the persisted store. -/
theorem endRoundSync_storedResults (s : GMState) :
    (endRoundSync s).1.storedResults = s.storedResults := by
  unfold endRoundSync
  split
  · rfl
  · rcases hq : s.spinQueue with _ | ⟨n, rest⟩ <;> simp [hq]

theorem endRoundResume_storedResults (spins : List Nat) (s : GMState) :
    (endRoundResume spins s).storedResults = s.storedResults := by
  unfold endRoundResume
  split <;> rfl

theorem endRound_storedResults (s : GMState) :
    (endRound s).1.storedResults = s.storedResults := by
  unfold endRound
  have h1 := endRoundSync_storedResults s
  rcases he : endRoundSync s with ⟨s1, k, r⟩
  rw [he] at h1
  rcases k with _ | spins
  · exact h1
  · rw [endRoundResume_storedResults]
    exact h1

/-- The queue drain of `endRound` on a non-empty queue, as one equation. -/
theorem endRound_cons (s : GMState) (n : Nat) (rest : List Nat)
    (hA : s.roundActive = true) (hQ : s.spinQueue = n :: rest) :
    endRound s =
      ({ s with
          spinQueue := rest
          currentSpinIndex := some n
          isSpinning := true
          roundActive := false
          pendingSpinTimers := s.pendingSpinTimers + 1 }, .spinStarted) := by
  have h1 : endRoundSync s
      = ({ s with spinQueue := [], currentSpinIndex := some n }, some (n :: rest), .spinStarted) := by
    unfold endRoundSync
    rw [if_neg (by simp [hA])]
    simp only [hQ]
  unfold endRound
  rw [h1]
  unfold endRoundResume
  rcases rest with _ | ⟨m, ms⟩
  · simp
  · simp

/-- C2: `endRound()` on an active round with a non-empty queue commits the
FIFO head as the result and leaves exactly the remaining queued numbers, in
their original relative order, as the new queue (they are returned to the
front of the queue, which the drain emptied). -/
theorem C2_endRound_commits_fifo_head (s : GMState) (n : Nat) (rest : List Nat)
    (hA : s.roundActive = true) (hQ : s.spinQueue = n :: rest) :
    (endRound s).2 = .spinStarted
    ∧ (endRound s).1.currentSpinIndex = some n
    ∧ (endRound s).1.spinQueue = rest
    ∧ (endRound s).1.isSpinning = true
    ∧ (endRound s).1.roundActive = false := by
  rw [endRound_cons s n rest hA hQ]
  exact ⟨rfl, rfl, rfl, rfl, rfl⟩

/-- Witness for C2 at the instance named by the claim: from an active round
with queue `[5, 17, 5]`, the committed result is 5 and the queue afterwards
is `[17, 5]`. -/
theorem C2_witness :
    (endRound { initialState with roundActive := true, spinQueue := [5, 17, 5] }).2
        = .spinStarted
    ∧ (endRound { initialState with roundActive := true, spinQueue := [5, 17, 5] }).1.currentSpinIndex
        = some 5
    ∧ (endRound { initialState with roundActive := true, spinQueue := [5, 17, 5] }).1.spinQueue
        = [17, 5]
    ∧ (endRound { initialState with roundActive := true, spinQueue := [5, 17, 5] }).1.isSpinning
        = true
    ∧ (endRound { initialState with roundActive := true, spinQueue := [5, 17, 5] }).1.roundActive
        = false :=
  C2_endRound_commits_fifo_head _ 5 [17, 5] rfl rfl

/-- Concrete state for the C3 counterexample: an active round whose queue
holds the single number 5, Supabase configured. -/
def cexC3State : GMState := { initialState with roundActive := true, spinQueue := [5] }

/-- C3 counterexample: the round-end transition that commits number 5 and
sets `isSpinning` persists NOTHING — the store is still empty after
`endRound()` — and the single SpinResult row appears only when `endSpin()`
runs at the end of the animation window, contradicting the claim that the
result is persisted at spin-start and not at spin-end. -/
theorem C3_counterexample :
    (endRound cexC3State).2 = .spinStarted
    ∧ (endRound cexC3State).1.isSpinning = true
    ∧ (endRound cexC3State).1.storedResults = []
    ∧ (endSpin (endRound cexC3State).1).1.storedResults
        = [⟨5, "Red", "Odd"⟩] := by
  refine ⟨by decide, by decide, by decide, by decide⟩

/-- C3 amended: exactly one SpinResult, with color and parity derived from
the committed number, is persisted per committed spin — but during
`endSpin()` (spin-end), while `endRound()` (the spin-start transition)
never writes to the store. -/
theorem C3_amended_store_at_spin_end (s : GMState) (n : Nat)
    (hconf : s.supabaseConfigured = true) (hn : n ≤ 36)
    (hspin : s.isSpinning = true) (hidx : s.currentSpinIndex = some n) :
    (endSpin s).1.storedResults
      = s.storedResults ++ [⟨n, rouletteColorCore (n : Int), rouletteParityCore (n : Int)⟩]
    ∧ ∀ t : GMState, (endRound t).1.storedResults = t.storedResults := by
  constructor
  · unfold endSpin
    rw [if_neg (by simp [hspin])]
    dsimp only
    rw [hidx]
    unfold storeSpinResult
    dsimp only
    rw [if_neg (by simp [hconf]), if_pos (by simpa [isValidNat] using hn)]
  · exact endRound_storedResults

/-- Witness for the amended C3: ending the spin that committed number 5
appends exactly the row (5, Red, Odd). -/
theorem C3_amended_witness :
    (endSpin { initialState with isSpinning := true, currentSpinIndex := some 5 }).1.storedResults
      = [⟨5, "Red", "Odd"⟩]
    ∧ ∀ t : GMState, (endRound t).1.storedResults = t.storedResults :=
  C3_amended_store_at_spin_end
    { initialState with isSpinning := true, currentSpinIndex := some 5 }
    5 rfl (by decide) rfl rfl

/-- The guard branch of `endRound`: with no active round it is a logged
no-op. -/
theorem endRound_noActiveRound (s : GMState) (h : s.roundActive = false) :
    endRound s = (s, .noActiveRound) := by
  unfold endRound endRoundSync
  rw [if_pos h]

/-- The guard branch of `endSpin`: with no active spin it is a logged
no-op. -/
theorem endSpin_notSpinning (s : GMState) (h : s.isSpinning = false) :
    endSpin s = (s, false) := by
  unfold endSpin
  rw [if_pos h]

/-- `endRound` on an active round with an empty queue, as one equation. -/
theorem endRound_nil (s : GMState) (hA : s.roundActive = true) (hQ : s.spinQueue = []) :
    endRound s =
      ({ s with
          spinQueue := []
          roundActive := false
          isSpinning := false
          currentSpinIndex := none }, .endedIdle) := by
  have h1 : endRoundSync s = ({ s with spinQueue := [], roundActive := false, isSpinning := false, currentSpinIndex := none }, none, .endedIdle) := by
    unfold endRoundSync
    rw [if_neg (by simp [hA])]
    simp only [hQ]
  unfold endRound
  rw [h1]

/-- C6: `endRound()` with no active round takes the logged early-return
failure branch and the entire state — queue, phase flags, committed number,
and persisted store — is unchanged. -/
theorem C6_endRound_rejected_when_idle (s : GMState) (h : s.roundActive = false) :
    endRound s = (s, .noActiveRound) :=
  endRound_noActiveRound s h

/-- Witness for C6 at the idle initial state. -/
theorem C6_witness : endRound initialState = (initialState, .noActiveRound) :=
  C6_endRound_rejected_when_idle initialState rfl

/-- Concrete state for the C4 counterexample: a round started at time 0
with the default 30000 ms duration, queue holding the number 5, observed at
time 30000 — the round is exactly expired. -/
def cexC4State : GMState :=
  { initialState with roundActive := true, currentRoundStartTime := some 0, spinQueue := [5] }

/-- C4 counterexample: the snapshot read at the expiry instant does force
`endRound()`, but the call is not awaited; with a non-empty queue the
transition parks at the audit `await` before clearing `roundActive`, and the
returned snapshot still reports `roundActive = true` for the expired
round — the claim that the snapshot never reports an expired phase fails. -/
theorem C4_counterexample :
    cexC4State.roundDuration ≤ 30000 - 0
    ∧ (getGameStateResponse 30000 cexC4State).1.roundActive = true
    ∧ (getGameStateResponse 30000 cexC4State).1.spinIndex = some 5 := by
  refine ⟨by decide, by decide, by decide⟩

/-- C4 amended: the snapshot read forces `endRound()` on an expired round,
but only the synchronous prefix of that call completes before the snapshot
is built.  With an empty queue the transition finishes synchronously and the
snapshot reports the idle phase; with a non-empty queue the call suspends at
the audit `await` and the snapshot still reports `roundActive = true`, with
the committed head already recorded and the continuation still pending. -/
theorem C4_amended_lazy_expiry (s : GMState) (now t0 : Nat)
    (hA : s.roundActive = true) (ht : s.currentRoundStartTime = some t0)
    (hexp : s.roundDuration ≤ now - t0) :
    (s.spinQueue = [] →
        (getGameStateResponse now s).1.roundActive = false
        ∧ (getGameStateResponse now s).1.isSpinning = false)
    ∧ ∀ n rest, s.spinQueue = n :: rest →
        (getGameStateResponse now s).1.roundActive = true
        ∧ (getGameStateResponse now s).2.1.currentSpinIndex = some n
        ∧ (getGameStateResponse now s).2.2 = some (n :: rest) := by
  constructor
  · intro hq
    have h1 : endRoundSync s = ({ s with spinQueue := [], roundActive := false, isSpinning := false, currentSpinIndex := none }, none, .endedIdle) := by
      unfold endRoundSync
      rw [if_neg (by simp [hA])]
      simp only [hq]
    unfold getGameStateResponse
    simp only [hA, ht]
    rw [if_pos hexp, h1]
    exact ⟨rfl, rfl⟩
  · intro n rest hq
    have h1 : endRoundSync s = ({ s with spinQueue := [], currentSpinIndex := some n }, some (n :: rest), .spinStarted) := by
      unfold endRoundSync
      rw [if_neg (by simp [hA])]
      simp only [hq]
    unfold getGameStateResponse
    simp only [hA, ht]
    rw [if_pos hexp, h1]
    exact ⟨hA, rfl, rfl⟩

/-- Witness for the amended C4: at the expiry instant of a round with an
empty queue, the snapshot reports idle. -/
theorem C4_amended_witness :
    (getGameStateResponse 30000
        { initialState with roundActive := true, currentRoundStartTime := some 0 }).1.roundActive
      = false
    ∧ (getGameStateResponse 30000
        { initialState with roundActive := true, currentRoundStartTime := some 0 }).1.isSpinning
      = false :=
  (C4_amended_lazy_expiry _ 30000 0 rfl rfl (by decide)).1 rfl

/-- Concrete state for the C5 counterexample: an active round whose queue
holds the single number 7. -/
def cexC5State : GMState :=
  { initialState with roundActive := true, currentRoundStartTime := some 0, spinQueue := [7] }

/-- C5 counterexample: a timer-fired `endRound()` drains the queue, commits
7, and suspends at its audit `await` (there is no `operationInProgress`
latch to stop anything else).  A `triggerRoundEnd()` scheduled during that
suspension still sees `roundActive = true`, runs a full `endRound()` on the
now-empty queue, transitions to idle clearing the committed number, and
returns success.  When the first call resumes it sets `isSpinning` anyway.
Both calls report success — not "exactly one transition, one rejection" —
and the committed number is gone: the later `endSpin()` persists nothing. -/
theorem C5_counterexample :
    (endRoundSync cexC5State).2.2 = .spinStarted
    ∧ (endRoundSync cexC5State).2.1 = some [7]
    ∧ (triggerRoundEnd (endRoundSync cexC5State).1).2 = true
    ∧ (endRoundResume [7] (triggerRoundEnd (endRoundSync cexC5State).1).1).isSpinning = true
    ∧ (endRoundResume [7] (triggerRoundEnd (endRoundSync cexC5State).1).1).currentSpinIndex
        = none
    ∧ (endSpin (endRoundResume [7]
          (triggerRoundEnd (endRoundSync cexC5State).1).1)).1.storedResults = [] := by
  refine ⟨by decide, by decide, by decide, by decide, by decide, by decide⟩

/-- C5 amended: there is no `operationInProgress` latch; the `roundActive`
guard alone serializes the two calls, which suffices only when they do not
overlap.  When the timer-fired `endRound()` runs to completion before
`triggerRoundEnd()` is scheduled, exactly one transition happens: the
completed call ended the round, and the trigger is rejected as
no-active-round, mutating nothing. -/
theorem C5_amended_sequential_exclusion (s : GMState) (hA : s.roundActive = true) :
    (endRound s).2 ≠ .noActiveRound
    ∧ (endRound s).1.roundActive = false
    ∧ triggerRoundEnd (endRound s).1 = ((endRound s).1, false) := by
  have hmain : (endRound s).2 ≠ .noActiveRound ∧ (endRound s).1.roundActive = false := by
    rcases hq : s.spinQueue with _ | ⟨n, rest⟩
    · rw [endRound_nil s hA hq]
      exact ⟨by simp, rfl⟩
    · rw [endRound_cons s n rest hA hq]
      exact ⟨by simp, rfl⟩
  refine ⟨hmain.1, hmain.2, ?_⟩
  unfold triggerRoundEnd
  rw [if_pos hmain.2]

/-- Witness for the amended C5: a full timer-fired `endRound()` on an active
round with queue `[7]`, then a `triggerRoundEnd()` — the latter fails and
changes nothing. -/
theorem C5_amended_witness :
    (endRound { initialState with roundActive := true, spinQueue := [7] }).2
        ≠ .noActiveRound
    ∧ (endRound { initialState with roundActive := true, spinQueue := [7] }).1.roundActive
        = false
    ∧ triggerRoundEnd (endRound { initialState with roundActive := true, spinQueue := [7] }).1
        = ((endRound { initialState with roundActive := true, spinQueue := [7] }).1, false) :=
  C5_amended_sequential_exclusion _ rfl

/-- C9 counterexample: `startNewRound` schedules a round-end `setTimeout`;
`reset()` stores no handle and calls no `clearTimeout`, so after the reset
the scheduled callback is still pending — the round timer was not
cancelled. -/
theorem C9_counterexample :
    (startNewRound 0 initialState).2 = true
    ∧ (startNewRound 0 initialState).1.pendingRoundTimers = 1
    ∧ (reset (startNewRound 0 initialState).1).pendingRoundTimers = 1 := by
  refine ⟨by decide, by decide, by decide⟩

/-- C9 amended: from any state, `reset()` yields the Idle phase
(`roundActive`, `isSpinning` false, committed number and start time
cleared), an empty queue, `runState = RUNNING`, and cleared
frontend-activity tracking.  Pending timer callbacks are NOT cancelled — no
handle is ever stored — but a stale round or spin timer that fires after the
reset is rejected by the phase guards and changes nothing. -/
theorem C9_amended_reset (s : GMState) :
    (reset s).currentState = .running
    ∧ (reset s).roundActive = false
    ∧ (reset s).isSpinning = false
    ∧ (reset s).currentRoundStartTime = none
    ∧ (reset s).currentSpinIndex = none
    ∧ (reset s).spinQueue = []
    ∧ (reset s).lastFrontendActivity = none
    ∧ (reset s).pendingRoundTimers = s.pendingRoundTimers
    ∧ (reset s).pendingSpinTimers = s.pendingSpinTimers
    ∧ endRound (reset s) = (reset s, .noActiveRound)
    ∧ endSpin (reset s) = (reset s, false) := by
  refine ⟨rfl, rfl, rfl, rfl, rfl, rfl, rfl, rfl, rfl, ?_, ?_⟩
  · exact endRound_noActiveRound (reset s) rfl
  · exact endSpin_notSpinning (reset s) rfl

/-- C10: while a spin is in progress, a committed number 0 is coerced to
`undefined` by the `|| undefined` in `getGameStateResponse` — the snapshot
omits `spinIndex` — even though `getSpinResult()` (which tests `=== null`)
returns `spinIndex = 0` in the same state; any committed number in [1, 36]
is included in the snapshot. -/
theorem C10_spinIndex_zero_omitted (s : GMState) (now : Nat)
    (hspin : s.isSpinning = true) (hA : s.roundActive = false) :
    (s.currentSpinIndex = some 0 →
        (getGameStateResponse now s).1.spinIndex = none
        ∧ getSpinResult s = some 0)
    ∧ ∀ n, 1 ≤ n → n ≤ 36 → s.currentSpinIndex = some n →
        (getGameStateResponse now s).1.spinIndex = some n := by
  have hfield : (getGameStateResponse now s).1.spinIndex
      = match s.currentSpinIndex with
        | some n => if n = 0 then none else some n
        | none => none := by
    unfold getGameStateResponse
    simp only [hA]
  constructor
  · intro h0
    constructor
    · rw [hfield, h0]
      simp
    · unfold getSpinResult
      rw [if_neg (by simp [hspin])]
      exact h0
  · intro n h1 h36 hn
    have hne : n ≠ 0 := by omega
    rw [hfield, hn]
    simp [hne]

/-- Witness for C10: spinning on committed number 0 — the snapshot omits
the index, the spin-result endpoint reports it. -/
theorem C10_witness :
    (getGameStateResponse 0
        { initialState with isSpinning := true, currentSpinIndex := some 0 }).1.spinIndex
      = none
    ∧ getSpinResult { initialState with isSpinning := true, currentSpinIndex := some 0 }
      = some 0 :=
  (C10_spinIndex_zero_omitted
    { initialState with isSpinning := true, currentSpinIndex := some 0 } 0 rfl rfl).1 rfl

/-- `isValidRouletteNumber` holds exactly on the integral rationals in
`[0, 36]`. -/
theorem isValidRouletteNumber_iff (q : ℚ) :
    isValidRouletteNumber q = true ↔ (q.den = 1 ∧ 0 ≤ q.num ∧ q.num ≤ 36) := by
  simp [isValidRouletteNumber, and_assoc]

/-- On valid inputs, the red/black/green fallthrough of the source computes
the same color as the spec order (0 first). -/
theorem rouletteColorCore_eq_spec (n : Int) (h0 : 0 ≤ n) (h36 : n ≤ 36) :
    rouletteColorCore n = specColorOf n := by
  interval_cases n <;> rfl

/-- C7: for every integral rational in [0, 36], `getRouletteColor` and
`getRouletteParity` return exactly the colors and parities described by the
spec (0 green/none, the fixed red set red, the rest black, parity by mod 2),
the red and black sets partition 1–36, and for every non-integral or
out-of-range input both functions fail with the validation error. -/
theorem C7_roulette_properties (q : ℚ) :
    (q.den = 1 → 0 ≤ q.num → q.num ≤ 36 →
        getRouletteColor q = Except.ok (specColorOf q.num)
        ∧ getRouletteParity q = Except.ok (specParityOf q.num))
    ∧ ((q.den ≠ 1 ∨ q.num < 0 ∨ 36 < q.num) →
        getRouletteColor q = Except.error "Invalid roulette number"
        ∧ getRouletteParity q = Except.error "Invalid roulette number")
    ∧ (∀ n : Int, 1 ≤ n → n ≤ 36 → (n ∈ RED_NUMBERS ↔ n ∉ BLACK_NUMBERS)) := by
  refine ⟨?_, ?_, ?_⟩
  · intro hden h0 h36
    have hv : isValidRouletteNumber q = true :=
      (isValidRouletteNumber_iff q).mpr ⟨hden, h0, h36⟩
    constructor
    · unfold getRouletteColor
      rw [if_pos hv, rouletteColorCore_eq_spec q.num h0 h36]
    · unfold getRouletteParity
      rw [if_pos hv]
      rfl
  · intro hbad
    have hv : ¬ isValidRouletteNumber q = true := by
      rw [isValidRouletteNumber_iff]
      rcases hbad with h | h | h
      · exact fun hc => h hc.1
      · exact fun hc => absurd hc.2.1 (by omega)
      · exact fun hc => absurd hc.2.2 (by omega)
    constructor
    · unfold getRouletteColor
      rw [if_neg hv]
    · unfold getRouletteParity
      rw [if_neg hv]
  · intro n h1 h36
    interval_cases n <;> decide

/-- Witness for C7: 5 is red and odd; 37 is rejected; 17 is black (in the
partition sense: not red, exactly because it is black). -/
theorem C7_witness :
    getRouletteColor 5 = Except.ok "Red"
    ∧ getRouletteParity 5 = Except.ok "Odd"
    ∧ getRouletteColor 37 = Except.error "Invalid roulette number"
    ∧ ((17 : Int) ∈ RED_NUMBERS ↔ (17 : Int) ∉ BLACK_NUMBERS) := by
  have h5 := (C7_roulette_properties 5).1 (by decide) (by decide) (by decide)
  have h37 := (C7_roulette_properties 37).2.1 (by decide)
  have h17 := (C7_roulette_properties 17).2.2 17 (by decide) (by decide)
  refine ⟨h5.1.trans ?_, h5.2.trans ?_, h37.1, h17⟩
  · have hc : specColorOf (5 : ℚ).num = "Red" := by decide
    rw [hc]
  · have hp : specParityOf (5 : ℚ).num = "Odd" := by decide
    rw [hp]

/-- Concrete state for the C8 counterexample: an idle machine whose queue
already holds `MAX_SPIN_QUEUE_SIZE` (100) numbers. -/
def cexC8State : GMState := { initialState with spinQueue := List.replicate 100 7 }

/-- C8 counterexample: the `spin:` handler of the wired-in
`src/bot/TelegramBotService.ts` has no queue-size check — an admin enqueue
of a valid number onto a queue already holding `MAX_SPIN_QUEUE_SIZE` numbers
is reported as queued and the number is appended past the bound, instead of
being rejected as queue-full with the queue unchanged. -/
theorem C8_counterexample :
    cexC8State.spinQueue.length = MAX_SPIN_QUEUE_SIZE
    ∧ (botAddSpin true 5 0 cexC8State).2 = .queued
    ∧ (botAddSpin true 5 0 cexC8State).1.spinQueue = List.replicate 100 7 ++ [5] := by
  refine ⟨by decide, by decide, by decide⟩

/-- C8 amended: the bound is enforced by the queue-bounded bot variant
(src/unnamed/part_002), not by the wired-in handler: there, an admin
enqueue of a valid number while the queue holds at least
`MAX_SPIN_QUEUE_SIZE` numbers is rejected with the explicit queue-full
outcome and the whole state — queue included — is unchanged. -/
theorem C8_amended_bounded_variant (s : GMState) (n now : Nat)
    (hn : n ≤ 36) (hfull : MAX_SPIN_QUEUE_SIZE ≤ s.spinQueue.length) :
    botAddSpinBounded true n now s = (s, .queueFull) := by
  unfold botAddSpinBounded
  rw [if_neg (by simp), if_neg (by simp [isValidNat, hn]), if_pos hfull]

/-- Witness for the amended C8: enqueueing 5 onto the full queue through the
bounded variant is rejected and leaves the state untouched. -/
theorem C8_amended_witness :
    botAddSpinBounded true 5 0 cexC8State = (cexC8State, .queueFull) :=
  C8_amended_bounded_variant cexC8State 5 0 (by decide) (by decide)

end Roulette
